/-
Verification of the stockeye-cli core against its specification.

The development shallowly embeds the Python sources:
  * `stockeye/core/rating.py`        (rating engine)
  * `stockeye/core/fundamentals.py`  (fundamental score)
  * `stockeye/core/indicators.py`    (cross detection)
  * `stockeye/services/data_fetcher.py` (cache + batch fetch layer)

Numbers are modelled as `Rat`/`Int` (Python floats carry exact decimal
literals here, no rounding is relevant to any property), Python `None`
as `Option.none`, dictionaries as association lists, and mutable heap
objects (DataFrames, info dicts) as cells of an explicit append-only
heap, so that aliasing between a cache table and a returned object is
observable.
-/
import Mathlib

namespace Stockeye

/-! ## Rating engine (`stockeye/core/rating.py`) -/

/-- The seven ordinal rating labels returned by `rating`.  The Python
strings carry emoji suffixes (for example "STRONG BUY" followed by two
green dots); only the label part is modelled. -/
inductive Rating where
  | STRONG_BUY
  | BUY
  | ADD
  | HOLD
  | REDUCE
  | SELL
  | STRONG_SELL
deriving DecidableEq, Repr

/-- The `cross_info` dictionary argument of `rating`: fields `type` and
`days_ago` (the latter after the `int(...)` conversion, which yields
`None` on failure). -/
structure CrossInfoIn where
  ctype : Option String
  days_ago : Option Int
deriving DecidableEq, Repr

/-- Python `x is not None and P(x)` patterns. -/
def onSome {α : Type} (d : Option α) (P : α → Prop) : Prop :=
  match d with
  | some x => P x
  | none => False

instance {α : Type} (d : Option α) (P : α → Prop) [DecidablePred P] :
    Decidable (onSome d P) :=
  match d with
  | some x => inferInstanceAs (Decidable (P x))
  | none => inferInstanceAs (Decidable False)

/-- RSI block of `rating` (lines 140-164): returns the RSI contribution
to the technical score together with the `rsi_extreme` flag.  With
`rsi_value = None` (`safe_float(rsi, None)`) the whole block is
skipped. -/
def rsi_points_extreme (rsi : Option ℚ) (sector_multiplier : ℚ) : Int × Option String :=
  match rsi with
  | none => (0, none)
  | some v =>
    let oversold_threshold := 30 * sector_multiplier
    let overbought_threshold := 70 / sector_multiplier
    let neutral_low := max 35 (oversold_threshold + 5)
    let neutral_high := min 65 (overbought_threshold - 5)
    if neutral_low ≤ v ∧ v ≤ neutral_high then (2, none)
    else if oversold_threshold ≤ v ∧ v < neutral_low then (1, some "oversold")
    else if neutral_high < v ∧ v ≤ overbought_threshold then (1, none)
    else if v < oversold_threshold then (0, some "very_oversold")
    else if v > overbought_threshold then (0, some "very_overbought")
    else (0, none)

/-- The `tech_score` accumulation of `rating` (lines 125-194), over the
`safe_float`-normalised price and averages. -/
def tech_score (price dma50 dma200 : ℚ) (rsi : Option ℚ)
    (macd_signal volume_signal bb_signal supertrend_signal adx_signal : Option String)
    (sector_multiplier : ℚ) : Int :=
  let dma_pts : Int :=
    if 0 < price ∧ 0 < dma50 ∧ 0 < dma200 then
      if dma50 < price ∧ dma200 < dma50 then 3
      else if dma50 < price then 2
      else if dma200 < price then 1
      else 0
    else 0
  let rsi_pts : Int := (rsi_points_extreme rsi sector_multiplier).1
  let macd_pts : Int :=
    if macd_signal = some "BULLISH" then 2
    else if macd_signal = some "NEUTRAL" then 1
    else 0
  let volume_pts : Int :=
    if volume_signal = some "HIGH" then 3
    else if volume_signal = some "NORMAL" then 2
    else if volume_signal = some "LOW" then 1
    else 0
  let bb_pts : Int :=
    if bb_signal = some "OVERSOLD" then 2
    else if bb_signal = some "NEUTRAL" then 1
    else 0
  let st_pts : Int := if supertrend_signal = some "BULLISH" then 2 else 0
  let adx_pts : Int := if adx_signal = some "STRONG_TREND" then 1 else 0
  dma_pts + rsi_pts + macd_pts + volume_pts + bb_pts + st_pts + adx_pts

/-- The priority-ordered classification cascade `rating` of
`stockeye/core/rating.py` (lines 87-347).  Inputs are pre-`safe_float`
optionals (`None` price maps to `0.0`, `None` fscore to `0`).  The
Python nested `if` blocks that can fall through are flattened into an
`if`/`else if` chain by repeating the guarding condition, which
preserves the first-match semantics.  The unused `vix_value` and
`market_regime` parameters are omitted. -/
def rating (price0 dma50_0 dma200_0 : Option ℚ) (fscore0 : Option Int)
    (cross_info : Option CrossInfoIn) (rsi : Option ℚ)
    (macd_signal volume_signal bb_signal supertrend_signal adx_signal : Option String)
    (sector_multiplier : ℚ) : Rating :=
  let price := price0.getD 0
  let dma50 := dma50_0.getD 0
  let dma200 := dma200_0.getD 0
  let fscore : Int := fscore0.getD 0
  let ci := cross_info.getD ⟨none, none⟩
  let cross_type := ci.ctype
  let days_ago := ci.days_ago
  let rsi_extreme := (rsi_points_extreme rsi sector_multiplier).2
  let rsi_value := rsi
  let ts := tech_score price dma50 dma200 rsi macd_signal volume_signal bb_signal
      supertrend_signal adx_signal sector_multiplier
  let combined_score : ℚ := (fscore : ℚ) * 1.5 + (ts : ℚ)
  -- STRONG SELL conditions
  if cross_type = some "DEATH_CROSS" ∧ onSome days_ago (· ≤ 15) then
    if macd_signal = some "BEARISH" ∨ volume_signal = some "HIGH" then .STRONG_SELL
    else .SELL
  else if rsi_extreme = some "very_overbought" ∧ macd_signal = some "BEARISH" ∧ fscore < 5 then
    .STRONG_SELL
  else if cross_type = some "DEATH_CROSS" ∧ onSome days_ago (· ≤ 30) then
    if 18 ≤ combined_score then .REDUCE else .SELL
  else if supertrend_signal = some "BEARISH" ∧ fscore < 4 ∧ macd_signal = some "BEARISH" then
    .SELL
  -- REDUCE conditions
  else if rsi_extreme = some "very_overbought" ∧ macd_signal = some "BEARISH" then
    .SELL
  else if rsi_extreme = some "very_overbought" ∧
      (macd_signal = some "NEUTRAL" ∨ volume_signal = some "LOW") then
    .REDUCE
  else if cross_type = some "GOLDEN_CROSS" ∧ onSome days_ago (90 < ·) ∧
      (macd_signal = some "BEARISH" ∨ onSome rsi_value (70 < ·)) then
    .REDUCE
  else if 6 ≤ fscore ∧ ts ≤ 4 then
    .REDUCE
  -- STRONG BUY conditions
  else if cross_type = some "GOLDEN_CROSS" ∧ onSome days_ago (· ≤ 10) ∧
      6 ≤ fscore ∧ macd_signal = some "BULLISH" ∧ volume_signal = some "HIGH" then
    if supertrend_signal = some "BULLISH" then .STRONG_BUY else .BUY
  else if cross_type = some "GOLDEN_CROSS" ∧ onSome days_ago (· ≤ 10) ∧
      5 ≤ fscore ∧ macd_signal = some "BULLISH" then
    .BUY
  else if rsi_extreme = some "very_oversold" ∧ macd_signal = some "BULLISH" ∧
      6 ≤ fscore ∧ volume_signal = some "HIGH" then
    if bb_signal = some "OVERSOLD" then .STRONG_BUY else .BUY
  else if rsi_extreme = some "very_oversold" ∧ macd_signal = some "BULLISH" ∧ 4 ≤ fscore then
    .BUY
  else if 20 ≤ combined_score ∧ macd_signal = some "BULLISH" ∧
      (volume_signal = some "HIGH" ∨ volume_signal = some "NORMAL") ∧
      (supertrend_signal = some "BULLISH" ∨ bb_signal = some "OVERSOLD") then
    .STRONG_BUY
  -- BUY conditions
  else if cross_type = some "GOLDEN_CROSS" ∧ onSome days_ago (fun d => 11 ≤ d ∧ d ≤ 30) ∧
      5 ≤ fscore ∧ macd_signal = some "BULLISH" then
    if supertrend_signal = some "BULLISH" then .BUY else .ADD
  else if cross_type = some "GOLDEN_CROSS" ∧ onSome days_ago (fun d => 11 ≤ d ∧ d ≤ 30) ∧
      4 ≤ fscore then
    .ADD
  else if 17 ≤ combined_score ∧ macd_signal ≠ some "BEARISH" ∧
      supertrend_signal ≠ some "BEARISH" then
    .BUY
  else if 7 ≤ fscore ∧ 8 ≤ ts then
    .BUY
  else if 3 ≤ ((if macd_signal = some "BULLISH" then 1 else 0) +
      (if supertrend_signal = some "BULLISH" then 1 else 0) +
      (if bb_signal = some "OVERSOLD" then 1 else 0) +
      (if volume_signal = some "HIGH" then 1 else 0) +
      (if adx_signal = some "STRONG_TREND" then 1 else 0) : Int) ∧ 6 ≤ fscore then
    .BUY
  -- ADD conditions
  else if 6 ≤ fscore ∧ rsi_extreme = some "oversold" ∧ dma200 < price then
    .ADD
  else if cross_type = some "GOLDEN_CROSS" ∧ onSome days_ago (fun d => 30 < d ∧ d ≤ 60) ∧
      5 ≤ fscore ∧ 6 ≤ ts then
    .ADD
  else if 14 ≤ combined_score ∧ macd_signal ≠ some "BEARISH" ∧ 5 ≤ fscore then
    .ADD
  -- HOLD conditions
  else if 11 ≤ combined_score ∧ combined_score < 14 then
    .HOLD
  else if 4 ≤ fscore ∧ 5 ≤ ts then
    .HOLD
  else if cross_type = some "GOLDEN_CROSS" ∧ 4 ≤ fscore then
    .HOLD
  -- SELL conditions
  else if combined_score < 9 ∧
      (macd_signal = some "BEARISH" ∨ supertrend_signal = some "BEARISH") then
    .SELL
  else if fscore < 3 ∧ ts < 5 then
    .SELL
  else if combined_score < 7 then
    .STRONG_SELL
  else
    .SELL

/-! ## Fundamental score (`stockeye/core/fundamentals.py`) -/

/-- State of one field of a company-info dictionary: key missing
entirely, present but bound to Python `None`, or a numeric value. -/
inductive FieldVal where
  | absent
  | null
  | num (q : ℚ)
deriving DecidableEq, Repr

/-- Python `info.get(key)`: a missing key and a null value both read as
`None`. -/
def FieldVal.get : FieldVal → Option ℚ
  | .absent => none
  | .null => none
  | .num q => some q

/-- Python `info.get(key, d)`: the default applies only to a missing
key; a present null value still reads as `None`. -/
def FieldVal.getD : FieldVal → ℚ → Option ℚ
  | .absent, d => some d
  | .null, _ => none
  | .num q, _ => some q

/-- The eight company-info fields consumed by `fundamental_score`. -/
structure CompanyInfo where
  returnOnEquity : FieldVal := .absent
  debtToEquity : FieldVal := .absent
  revenueGrowth : FieldVal := .absent
  profitMargins : FieldVal := .absent
  heldPercentInsiders : FieldVal := .absent
  priceToBook : FieldVal := .absent
  dividendYield : FieldVal := .absent
  operatingMargins : FieldVal := .absent
deriving DecidableEq, Repr

/-- `fundamental_score` of `stockeye/core/fundamentals.py` (lines 1-55).
The promoter-holding line evaluates
`info.get("heldPercentInsiders", 0) * 100` before any `None` check, so
a present-but-null field raises `TypeError` (modelled as
`Except.error ()`); the `is not None` test on the following line is
dead code for that value.  Every other field is `None`-guarded before
use.  On a numeric field the `isinstance` tests are vacuously true in
this model. -/
def fundamental_score (info : Option CompanyInfo) : Except Unit Int :=
  match info with
  | none => .ok 0
  | some info =>
    let s1 : Int := match info.returnOnEquity.get with
      | some roe => if 0.15 < roe then 2 else 0
      | none => 0
    let s2 : Int := match info.debtToEquity.get with
      | some de => if de < 1 then 2 else 0
      | none => 0
    let s3 : Int := match info.revenueGrowth.get with
      | some rg => if 0.1 < rg then 2 else 0
      | none => 0
    let s4 : Int := match info.profitMargins.get with
      | some pm => if 0.1 < pm then 2 else 0
      | none => 0
    match info.heldPercentInsiders.getD 0 with
    | none => .error ()
    | some p =>
      let promoter_holding := p * 100
      let s5 : Int := if 40 ≤ promoter_holding ∧ promoter_holding ≤ 70 then 1 else 0
      let s6 : Int := match info.priceToBook.getD 999 with
        | some pb => if pb < 3 ∧ 0 < pb then 1 else 0
        | none => 0
      let s7 : Int := match info.dividendYield.getD 0 with
        | some dy => if 1 < dy * 100 then 1 else 0
        | none => 0
      let s8 : Int := match info.operatingMargins.getD 0 with
        | some om => if 0.15 < om then 1 else 0
        | none => 0
      .ok (min (s1 + s2 + s3 + s4 + s5 + s6 + s7 + s8) 12)

/-! ## Market-data cache layer (`stockeye/services/data_fetcher.py`)

DataFrames and info dictionaries are mutable Python objects; they are
modelled as cells of an append-only heap of payloads `Obj` (the payload
contents are irrelevant to the claims: a list of naturals stands for
the rows of a frame or the items of a dict, the empty list for an
empty frame or a falsy empty dict).  The cache tables store
(timestamp, address) pairs, so aliasing between a cached object and a
returned object is address equality.  The wall clock `time.time()` and
the upstream yfinance call are passed in explicitly; an upstream
exception is `Except.error ()`. -/

/-- Payload of one Python object: the rows of a DataFrame or the items
of an info dict. -/
abbrev Obj := List Nat

/-- The object heap: addresses are indices, allocation appends. -/
structure Heap where
  cells : List Obj
deriving DecidableEq, Repr

/-- Create a fresh object, returning the new heap and its address. -/
def Heap.alloc (h : Heap) (v : Obj) : Heap × Nat :=
  (⟨h.cells ++ [v]⟩, h.cells.length)

/-- Read an object (out-of-range reads never arise on reachable states;
they default to the empty payload). -/
def Heap.get (h : Heap) (a : Nat) : Obj := h.cells.getD a []

/-- Mutate an object in place — what a caller could do to a returned
DataFrame or dict. -/
def Heap.set (h : Heap) (a : Nat) (v : Obj) : Heap := ⟨h.cells.set a v⟩

/-- INFO_CACHE_DURATION = 300 ("5 minutes for stock info"). -/
def INFO_CACHE_DURATION : ℚ := 300

/-- HISTORY_CACHE_DURATION = 60 ("1 minute for historical data"). -/
def HISTORY_CACHE_DURATION : ℚ := 60

/-- `_is_cache_valid(timestamp, duration)`: `time.time() - timestamp <
duration`, with the clock made explicit. -/
def is_cache_valid (now timestamp duration : ℚ) : Prop :=
  now - timestamp < duration

instance (now timestamp duration : ℚ) : Decidable (is_cache_valid now timestamp duration) :=
  inferInstanceAs (Decidable (now - timestamp < duration))

/-- The module-level mutable state of `data_fetcher.py`: the three cache
tables `_info_cache`, `_history_cache`, `_batch_history_cache` plus the
object heap.  Tables are association lists with the most recent binding
first. -/
structure FetchState where
  heap : Heap
  info_cache : List (String × (ℚ × Nat))
  history_cache : List ((String × String) × (ℚ × Nat))
  batch_history_cache : List ((List String × String) × (ℚ × Nat))
deriving DecidableEq, Repr

/-- Python dict assignment `d[k] = v` on an association list. -/
def dictInsert {κ : Type} [BEq κ] (l : List (κ × (ℚ × Nat))) (k : κ) (v : ℚ × Nat) :
    List (κ × (ℚ × Nat)) :=
  (k, v) :: l.filter (fun p => !(p.1 == k))

/-- `fetch_stock_info` (data_fetcher.py lines 50-83).  On a valid cache
hit the stored info object itself is returned (`return symbol, info`,
no copy).  On a miss, upstream success allocates the freshly downloaded
info object, stores its address with the current timestamp and returns
it; an upstream exception allocates a fresh empty dict
(`return symbol, {}`) and writes nothing to any cache table.  (Python
reads the clock again when storing; the two reads are collapsed into
one `now`.) -/
def fetch_stock_info (now : ℚ) (symbol : String) (upstream : Except Unit Obj)
    (st : FetchState) (use_cache : Bool := true) : (String × Nat) × FetchState :=
  let fetchPath : (String × Nat) × FetchState :=
    match upstream with
    | .ok info =>
      let h := st.heap.alloc info
      ((symbol, h.2),
        { st with heap := h.1, info_cache := dictInsert st.info_cache symbol (now, h.2) })
    | .error _ =>
      let h := st.heap.alloc []
      ((symbol, h.2), { st with heap := h.1 })
  match st.info_cache.lookup symbol with
  | some (ts, a) =>
    if use_cache = true ∧ is_cache_valid now ts INFO_CACHE_DURATION then ((symbol, a), st)
    else fetchPath
  | none => fetchPath

/-- `fetch_stock_history` (data_fetcher.py lines 85-120).  On a valid
cache hit this returns `hist.copy()`: a freshly allocated object with
the cached payload.  On a miss, upstream success stores and returns the
downloaded frame (the same object, uncopied); an upstream exception
allocates a fresh empty frame (`return pd.DataFrame()`) and writes
nothing. -/
def fetch_stock_history (now : ℚ) (symbol period : String) (upstream : Except Unit Obj)
    (st : FetchState) (use_cache : Bool := true) : Nat × FetchState :=
  let cache_key := (symbol, period)
  let fetchPath : Nat × FetchState :=
    match upstream with
    | .ok hist =>
      let h := st.heap.alloc hist
      (h.2,
        { st with
            heap := h.1
            history_cache := dictInsert st.history_cache cache_key (now, h.2) })
    | .error _ =>
      let h := st.heap.alloc []
      (h.2, { st with heap := h.1 })
  match st.history_cache.lookup cache_key with
  | some (ts, a) =>
    if use_cache = true ∧ is_cache_valid now ts HISTORY_CACHE_DURATION then
      let h := st.heap.alloc (st.heap.get a)
      (h.2, { st with heap := h.1 })
    else fetchPath
  | none => fetchPath

/-- `tuple(sorted(symbols))` (insertion sort; only the function of the
key matters). -/
def insertSorted (s : String) : List String → List String
  | [] => [s]
  | t :: ts => if s ≤ t then s :: t :: ts else t :: insertSorted s ts

/-- `tuple(sorted(symbols))`. -/
def sortedSymbols : List String → List String
  | [] => []
  | s :: ss => insertSorted s (sortedSymbols ss)

/-- `fetch_stock_history_batch` (data_fetcher.py lines 122-162): as
`fetch_stock_history` with key `(tuple(sorted(symbols)), period)` and
table `_batch_history_cache`. -/
def fetch_stock_history_batch (now : ℚ) (symbols : List String) (period : String)
    (upstream : Except Unit Obj) (st : FetchState) (use_cache : Bool := true) :
    Nat × FetchState :=
  let cache_key := (sortedSymbols symbols, period)
  let fetchPath : Nat × FetchState :=
    match upstream with
    | .ok data =>
      let h := st.heap.alloc data
      (h.2,
        { st with
            heap := h.1
            batch_history_cache := dictInsert st.batch_history_cache cache_key (now, h.2) })
    | .error _ =>
      let h := st.heap.alloc []
      (h.2, { st with heap := h.1 })
  match st.batch_history_cache.lookup cache_key with
  | some (ts, a) =>
    if use_cache = true ∧ is_cache_valid now ts HISTORY_CACHE_DURATION then
      let h := st.heap.alloc (st.heap.get a)
      (h.2, { st with heap := h.1 })
    else fetchPath
  | none => fetchPath

/-- `fetch_stock` (data_fetcher.py lines 240-266): fetch history, then
info; return `(None, None)` when the history frame is `None` or empty
(the model's history result is never `None`), otherwise the pair of the
two objects, the info dict defaulting to `{}` — in the model the info
fetch already yields a (possibly empty) dict object, never `None`. -/
def fetch_stock (now : ℚ) (symbol period : String)
    (upstreamHist upstreamInfo : Except Unit Obj) (st : FetchState) :
    (Option Nat × Option Nat) × FetchState :=
  let dfr := fetch_stock_history now symbol period upstreamHist st
  let dfVal := dfr.2.heap.get dfr.1
  let ir := fetch_stock_info now symbol upstreamInfo dfr.2
  if dfVal = [] then ((none, none), ir.2)
  else ((some dfr.1, some ir.1.2), ir.2)

/-! ## Batch fetch merge (`fetch_stock_batch`, data_fetcher.py 269-341)

The gather phase is modelled by its outcome: `infoOf s` is the dict
returned by `fetch_stock_info` for `s` (empty on failure), and `resp`
is the bulk `yf.download` frame as one column group of rows per ticker
(`resp = []` when the download failed or returned nothing).  A pandas
frame is `.empty` iff it has no rows, i.e. iff every column group is
empty. -/

/-- `history_data.empty`. -/
def frameEmpty (resp : List (String × Obj)) : Bool :=
  resp.all (fun p => p.2.isEmpty)

/-- All rows of the frame: what `history_data` itself holds, used by the
`len(symbols) == 1` branch, where the single-ticker frame is taken
whole. -/
def frameRows (resp : List (String × Obj)) : Obj :=
  resp.foldr (fun p acc => p.2 ++ acc) []

/-- `fetch_stock_batch` (gather outcomes + merge loop).  `info_data`
keeps only truthy (non-empty) info dicts (`if info:`); the merge skips
a symbol with an empty frame slice and no collected info
(`if df.empty and symbol not in info_data: continue`), and otherwise
pairs the slice with `info_data.get(symbol, {})`. -/
def fetch_stock_batch (symbols : List String) (infoOf : String → Obj)
    (resp : List (String × Obj)) : List (String × (Obj × Obj)) :=
  let info_data : List (String × Obj) :=
    symbols.filterMap (fun s => if (infoOf s).isEmpty then none else some (s, infoOf s))
  symbols.filterMap (fun symbol =>
    let df : Obj :=
      if frameEmpty resp then []
      else if symbols.length = 1 then frameRows resp
      else (resp.lookup symbol).getD []
    if df.isEmpty ∧ info_data.lookup symbol = none then none
    else some (symbol, (df, (info_data.lookup symbol).getD [])))

/-! ## Cross detection (`stockeye/core/indicators.py`) -/

/-- One row of the indicator-annotated price frame: its DatetimeIndex
date (as a day number — pandas Timestamps are totally ordered, always
truthy, and subtract to day differences), the Close column, and the two
moving-average columns with NaN modelled as `none`. -/
structure Bar where
  date : Int
  close : ℚ
  dma50 : Option ℚ
  dma200 : Option ℚ
deriving DecidableEq, Repr

/-- The row predicate of `dropna(subset=["DMA50", "DMA200"])`. -/
def bothDefined (b : Bar) : Bool := b.dma50.isSome && b.dma200.isSome

/-- The `signal` column: +1 where DMA50 > DMA200, -1 where DMA50 <
DMA200, 0 otherwise (rows with NaN averages are dropped before use). -/
def sigOf (b : Bar) : Int :=
  match b.dma50, b.dma200 with
  | some a, some c => if c < a then 1 else if a < c then -1 else 0
  | _, _ => 0

/-- Consecutive row pairs (predecessor, row): `signal.diff()` at a row
compares it with its predecessor; the first row's NaN diff never
compares as a cross. -/
def consecPairs (l : List Bar) : List (Bar × Bar) := l.zip l.tail

/-- The result dict of `detect_cross_age`. -/
structure CrossOut where
  ctype : Option String
  days_ago : Option Int
  cross_price : Option ℚ
deriving DecidableEq, Repr

/-- `{'type': None, 'days_ago': None, 'cross_price': None}`. -/
def defaultCross : CrossOut := ⟨none, none, none⟩

/-- `detect_cross_age` (indicators.py lines 277-337) over a frame that
has the DMA columns.  `golden_crosses` are the rows whose signal diff
is positive, `death_crosses` those with a negative diff; the most
recent of each is its last row; `most_recent_golden and
most_recent_death` tests presence (DatetimeIndex timestamps are always
truthy); the age is `latest index - cross index` in days and the cross
price is the Close at the cross date (`.loc`, first match). -/
def detect_cross_age (df : List Bar) : CrossOut :=
  if df.length < 2 then defaultCross
  else if (df.all fun b => b.dma50.isNone) || (df.all fun b => b.dma200.isNone) then
    defaultCross
  else
    let valid := df.filter bothDefined
    if valid.length < 2 then defaultCross
    else
      let pairs := consecPairs valid
      let goldens := pairs.filter (fun p => sigOf p.1 < sigOf p.2)
      let deaths := pairs.filter (fun p => sigOf p.2 < sigOf p.1)
      let latest_date := ((valid.getLast?).map Bar.date).getD 0
      let mk : String → Bar → CrossOut := fun cross_type crossBar =>
        ⟨some cross_type, some (latest_date - crossBar.date),
         ((valid.find? (fun b => b.date == crossBar.date)).map Bar.close)⟩
      match goldens.getLast?, deaths.getLast? with
      | none, none => defaultCross
      | some g, none => mk "GOLDEN_CROSS" g.2
      | none, some d => mk "DEATH_CROSS" d.2
      | some g, some d =>
        if d.2.date < g.2.date then mk "GOLDEN_CROSS" g.2 else mk "DEATH_CROSS" d.2

/-- The specification's reading of the detector: among the rows where
both averages are defined, the chronologically last sign-jump decides
the event — a positive jump reports GOLDEN, a negative one DEATH, with
`days_ago` the day difference from the latest defined row and the
price the Close of the cross row; no jump at all yields the all-`none`
event. -/
def detect_cross_spec (df : List Bar) : CrossOut :=
  let valid := df.filter bothDefined
  if valid.length < 2 then defaultCross
  else
    let jumps := (consecPairs valid).filter (fun p => sigOf p.1 ≠ sigOf p.2)
    match jumps.getLast? with
    | none => defaultCross
    | some p =>
      let latest_date := ((valid.getLast?).map Bar.date).getD 0
      if sigOf p.1 < sigOf p.2 then
        ⟨some "GOLDEN_CROSS", some (latest_date - p.2.date), some p.2.close⟩
      else
        ⟨some "DEATH_CROSS", some (latest_date - p.2.date), some p.2.close⟩

/-- Choice of the chronologically later of two optional candidates
(`f` extracts the date); mirrors the comparison at indicators.py:313. -/
def laterOf {α : Type} (f : α → Int) : Option α → Option α → Option α
  | none, none => none
  | some g, none => some g
  | none, some d => some d
  | some g, some d => some (if f d < f g then g else d)

/-! ## Claims about cross detection -/

theorem find?_eq_head?_filter {α : Type} (p : α → Bool) :
    ∀ (l : List α), l.find? p = (l.filter p).head? := by
  intro l
  induction l with
  | nil => rfl
  | cons a t ih =>
    rw [List.find?_cons, List.filter_cons]
    cases hp : p a with
    | true => rfl
    | false => exact ih

theorem getLast?_filter {α : Type} (p : α → Bool) (l : List α) :
    (l.filter p).getLast? = l.reverse.find? p := by
  rw [find?_eq_head?_filter, List.filter_reverse, List.head?_reverse]

theorem find?_or_of_disjoint {α : Type} (P Q : α → Bool) (f : α → Int)
    (hdisj : ∀ x, ¬(P x = true ∧ Q x = true)) :
    ∀ (r : List α), r.Pairwise (fun x y => f y < f x) →
    r.find? (fun x => P x || Q x) = laterOf f (r.find? P) (r.find? Q) := by
  intro r
  induction r with
  | nil => intro _; rfl
  | cons a t ih =>
    intro hp
    have hpt := (List.pairwise_cons.mp hp).2
    have hlt := (List.pairwise_cons.mp hp).1
    rw [List.find?_cons, List.find?_cons, List.find?_cons]
    cases hPa : P a with
    | true =>
      have hQa : Q a = false := by
        cases hq : Q a with
        | false => rfl
        | true => exact absurd ⟨hPa, hq⟩ (hdisj a)
      rw [hQa]
      show some a = laterOf f (some a) (t.find? Q)
      cases hfq : t.find? Q with
      | none => rfl
      | some d =>
        have hd : f d < f a := hlt d (List.mem_of_find?_eq_some hfq)
        simp only [laterOf]
        rw [if_pos hd]
    | false =>
      cases hQa : Q a with
      | true =>
        show some a = laterOf f (t.find? P) (some a)
        cases hfp : t.find? P with
        | none => rfl
        | some g =>
          have hg : f g < f a := hlt g (List.mem_of_find?_eq_some hfp)
          have hng : ¬ (f a < f g) := by omega
          simp only [laterOf]
          rw [if_neg hng]
      | false =>
        show t.find? (fun x => P x || Q x) = laterOf f (t.find? P) (t.find? Q)
        exact ih hpt

theorem find?_date_self (c : Bar) :
    ∀ (l : List Bar), l.Pairwise (fun a b => a.date < b.date) → c ∈ l →
    l.find? (fun b => b.date == c.date) = some c := by
  intro l
  induction l with
  | nil => intro _ h; exact absurd h (List.not_mem_nil c)
  | cons a t ih =>
    intro hp hc
    rcases List.mem_cons.mp hc with rfl | hct
    · simp [List.find?_cons]
    · have hlt : a.date < c.date := (List.pairwise_cons.mp hp).1 c hct
      have hne : (a.date == c.date) = false := by
        apply beq_eq_false_iff_ne.mpr
        omega
      simp only [List.find?_cons, hne]
      exact ih (List.pairwise_cons.mp hp).2 hct

/-- C5: for every price series whose rows carry strictly increasing
dates and at least two rows with both averages defined,
`detect_cross_age` returns exactly what the specification describes:
the chronologically later of the most recent positive sign-jump
(GOLDEN) and the most recent negative sign-jump (DEATH), with
`days_ago` the difference between the latest defined row's date and the
cross row's date and the price the cross row's Close; and the all-none
event when no sign jump ever occurs. -/
theorem c5_detect_cross_age_matches_spec (df : List Bar)
    (hmono : df.Pairwise (fun a b => a.date < b.date))
    (hv : 2 ≤ (df.filter bothDefined).length) :
    detect_cross_age df = detect_cross_spec df := by
  have hvp : (df.filter bothDefined).Pairwise (fun a b => a.date < b.date) :=
    hmono.filter bothDefined
  have hg1 : ¬(df.length < 2) := by
    have := List.length_filter_le bothDefined df
    omega
  have hlt2 : ¬((df.filter bothDefined).length < 2) := by omega
  have hvne : df.filter bothDefined ≠ [] := by
    intro h
    rw [h] at hv
    simp at hv
  obtain ⟨b0, hb0⟩ := List.exists_mem_of_ne_nil _ hvne
  have hb0d : bothDefined b0 = true := List.of_mem_filter hb0
  have hb0df : b0 ∈ df := List.mem_of_mem_filter hb0
  have hg2 : ¬(((df.all fun b => b.dma50.isNone) || (df.all fun b => b.dma200.isNone)) = true) := by
    have hboth : b0.dma50.isSome = true ∧ b0.dma200.isSome = true := by
      simpa [bothDefined] using hb0d
    have h5 := hboth.1
    have h2 := hboth.2
    simp only [Bool.or_eq_true, List.all_eq_true]
    rintro (h | h)
    · have := h b0 hb0df
      rw [Option.isNone_iff_eq_none] at this
      rw [this] at h5
      simp at h5
    · have := h b0 hb0df
      rw [Option.isNone_iff_eq_none] at this
      rw [this] at h2
      simp at h2
  -- the jump filter splits into the two signed filters
  have hjump : (consecPairs (df.filter bothDefined)).filter
        (fun p => decide (sigOf p.1 ≠ sigOf p.2))
      = (consecPairs (df.filter bothDefined)).filter
        (fun p => decide (sigOf p.1 < sigOf p.2) || decide (sigOf p.2 < sigOf p.1)) := by
    apply List.filter_congr
    intro x _
    rw [Bool.eq_iff_iff]
    simp only [decide_eq_true_eq, Bool.or_eq_true]
    omega
  -- dates of the second components increase along the pair list
  have hmap : (consecPairs (df.filter bothDefined)).map Prod.snd
      = (df.filter bothDefined).tail := by
    apply List.map_snd_zip
    rw [List.length_tail]
    omega
  have hpw : (consecPairs (df.filter bothDefined)).Pairwise
      (fun p q => p.2.date < q.2.date) := by
    have ht : ((consecPairs (df.filter bothDefined)).map Prod.snd).Pairwise
        (fun a b => a.date < b.date) := by
      rw [hmap]
      exact hvp.sublist (List.tail_sublist _)
    exact (@List.pairwise_map (Bar × Bar) Bar Prod.snd (fun a b : Bar => a.date < b.date)
      (consecPairs (df.filter bothDefined))).mp ht
  have hpwr : (consecPairs (df.filter bothDefined)).reverse.Pairwise
      (fun p q => q.2.date < p.2.date) := by
    rw [List.pairwise_reverse]
    exact hpw
  have hkey := find?_or_of_disjoint
      (fun p : Bar × Bar => decide (sigOf p.1 < sigOf p.2))
      (fun p : Bar × Bar => decide (sigOf p.2 < sigOf p.1))
      (fun p : Bar × Bar => p.2.date)
      (by intro x; simp only [decide_eq_true_eq]; omega)
      (consecPairs (df.filter bothDefined)).reverse hpwr
  -- membership of a found pair's second component in the valid rows
  have hsnd : ∀ p : Bar × Bar, p ∈ (consecPairs (df.filter bothDefined)).reverse →
      p.2 ∈ df.filter bothDefined := by
    intro p hp
    rw [List.mem_reverse] at hp
    have := (List.of_mem_zip hp).2
    exact (List.tail_sublist _).subset this
  rw [detect_cross_age, detect_cross_spec]
  rw [if_neg hg1, if_neg hg2, if_neg hlt2, if_neg hlt2]
  simp only [hjump, getLast?_filter, hkey]
  rcases hfp : (consecPairs (df.filter bothDefined)).reverse.find?
      (fun p => decide (sigOf p.1 < sigOf p.2)) with _ | g
  · rcases hfq : (consecPairs (df.filter bothDefined)).reverse.find?
        (fun p => decide (sigOf p.2 < sigOf p.1)) with _ | d
    · rw [hfp, hfq]
      rfl
    · rw [hfp, hfq]
      have hdir : sigOf d.2 < sigOf d.1 := by
        simpa using List.find?_some hfq
      have hmem := hsnd d (List.mem_of_find?_eq_some hfq)
      simp only [laterOf]
      rw [if_neg (by omega : ¬ sigOf d.1 < sigOf d.2)]
      rw [find?_date_self d.2 _ hvp hmem]
      rfl
  · rcases hfq : (consecPairs (df.filter bothDefined)).reverse.find?
        (fun p => decide (sigOf p.2 < sigOf p.1)) with _ | d
    · rw [hfp, hfq]
      have hdir : sigOf g.1 < sigOf g.2 := by
        simpa using List.find?_some hfp
      have hmem := hsnd g (List.mem_of_find?_eq_some hfp)
      simp only [laterOf]
      rw [if_pos hdir]
      rw [find?_date_self g.2 _ hvp hmem]
      rfl
    · rw [hfp, hfq]
      have hdirg : sigOf g.1 < sigOf g.2 := by
        simpa using List.find?_some hfp
      have hdird : sigOf d.2 < sigOf d.1 := by
        simpa using List.find?_some hfq
      have hmemg := hsnd g (List.mem_of_find?_eq_some hfp)
      have hmemd := hsnd d (List.mem_of_find?_eq_some hfq)
      simp only [laterOf]
      by_cases hc : d.2.date < g.2.date
      · rw [if_pos hc, if_pos hc, if_pos hdirg]
        rw [find?_date_self g.2 _ hvp hmemg]
        rfl
      · rw [if_neg hc, if_neg hc]
        rw [if_neg (by omega : ¬ sigOf d.1 < sigOf d.2)]
        rw [find?_date_self d.2 _ hvp hmemd]
        rfl

/-- C5 witness: a three-row series (death cross between the first two
rows, golden cross between the last two), where both detectors report
the golden cross aged 0 days. -/
theorem c5_detect_cross_age_matches_spec_witness :
    detect_cross_age [⟨0, 100, some 9, some 7⟩, ⟨1, 101, some 5, some 7⟩,
        ⟨2, 102, some 8, some 7⟩]
      = detect_cross_spec [⟨0, 100, some 9, some 7⟩, ⟨1, 101, some 5, some 7⟩,
        ⟨2, 102, some 8, some 7⟩] ∧
    detect_cross_spec [⟨0, 100, some 9, some 7⟩, ⟨1, 101, some 5, some 7⟩,
        ⟨2, 102, some 8, some 7⟩]
      = ⟨some "GOLDEN_CROSS", some 0, some 102⟩ := by
  constructor
  · exact c5_detect_cross_age_matches_spec
      [⟨0, 100, some 9, some 7⟩, ⟨1, 101, some 5, some 7⟩, ⟨2, 102, some 8, some 7⟩]
      (by decide) (by decide)
  · decide

/-! ## Claims about the cache layer -/

theorem getD_append_self (l : List Obj) (x : Obj) : (l ++ [x]).getD l.length [] = x := by
  induction l with
  | nil => rfl
  | cons a t ih => exact ih

theorem getD_append_lt (l : List Obj) (x : Obj) (a : Nat) (h : a < l.length) :
    (l ++ [x]).getD a [] = l.getD a [] := by
  induction l generalizing a with
  | nil => exact absurd h (Nat.not_lt_zero a)
  | cons b t ih =>
    cases a with
    | zero => rfl
    | succ n => simpa using ih n (Nat.lt_of_succ_lt_succ h)

theorem getD_set_ne (l : List Obj) (n a : Nat) (v : Obj) (h : a ≠ n) :
    (l.set n v).getD a [] = l.getD a [] := by
  induction l generalizing a n with
  | nil => rfl
  | cons b t ih =>
    cases n with
    | zero =>
      cases a with
      | zero => exact absurd rfl h
      | succ m => rfl
    | succ k =>
      cases a with
      | zero => rfl
      | succ m => simpa using ih k m (fun hc => h (congrArg Nat.succ hc))

theorem lookup_dictInsert_self {kt : Type} [BEq kt] [LawfulBEq kt]
    (l : List (kt × (ℚ × Nat))) (k : kt) (v : ℚ × Nat) :
    (dictInsert l k v).lookup k = some v := by
  simp [dictInsert, List.lookup]

/-- C4: the claim is false for the metadata accessor: on a valid cache
hit `fetch_stock_info` returns the stored dict object itself (state
unchanged, returned address = cached address 0), so mutating the
returned object changes the object the cache serves from [1] to [2]. -/
theorem c4_info_hit_aliases_cache :
    (fetch_stock_info 10 "X" (.error ()) ⟨⟨[[1]]⟩, [("X", (0, 0))], [], []⟩ true).2
      = ⟨⟨[[1]]⟩, [("X", (0, 0))], [], []⟩ ∧
    (fetch_stock_info 10 "X" (.error ()) ⟨⟨[[1]]⟩, [("X", (0, 0))], [], []⟩ true).1.2 = 0 ∧
    (FetchState.heap ⟨⟨[[1]]⟩, [("X", (0, 0))], [], []⟩).get 0 = [1] ∧
    ((FetchState.heap ⟨⟨[[1]]⟩, [("X", (0, 0))], [], []⟩).set 0 [2]).get 0 = [2] ∧
    ([2] : Obj) ≠ [1] := by
  refine ⟨?_, ?_, by rfl, by rfl, by simp⟩ <;>
    · simp only [fetch_stock_info, List.lookup]
      norm_num [is_cache_valid, INFO_CACHE_DURATION]

/-- C4 (amended): the per-symbol history and batch-history accessors do
return a defensive copy on a valid hit — a fresh object, value-equal to
the cached one, whose mutation leaves the cached object unchanged — but
the metadata accessor returns the cached object itself, unprotected. -/
theorem c4_copy_on_hit :
    (∀ (st : FetchState) (now ts : ℚ) (sym period : String) (a : Nat) (up : Except Unit Obj),
      st.history_cache.lookup (sym, period) = some (ts, a) →
      is_cache_valid now ts HISTORY_CACHE_DURATION →
      a < st.heap.cells.length →
      (fetch_stock_history now sym period up st true).1 ≠ a ∧
      (fetch_stock_history now sym period up st true).2.heap.get
        (fetch_stock_history now sym period up st true).1 = st.heap.get a ∧
      ∀ v, ((fetch_stock_history now sym period up st true).2.heap.set
        (fetch_stock_history now sym period up st true).1 v).get a = st.heap.get a) ∧
    (∀ (st : FetchState) (now ts : ℚ) (symbols : List String) (period : String)
      (a : Nat) (up : Except Unit Obj),
      st.batch_history_cache.lookup (sortedSymbols symbols, period) = some (ts, a) →
      is_cache_valid now ts HISTORY_CACHE_DURATION →
      a < st.heap.cells.length →
      (fetch_stock_history_batch now symbols period up st true).1 ≠ a ∧
      (fetch_stock_history_batch now symbols period up st true).2.heap.get
        (fetch_stock_history_batch now symbols period up st true).1 = st.heap.get a ∧
      ∀ v, ((fetch_stock_history_batch now symbols period up st true).2.heap.set
        (fetch_stock_history_batch now symbols period up st true).1 v).get a = st.heap.get a) ∧
    (∀ (st : FetchState) (now ts : ℚ) (sym : String) (a : Nat) (up : Except Unit Obj),
      st.info_cache.lookup sym = some (ts, a) →
      is_cache_valid now ts INFO_CACHE_DURATION →
      (fetch_stock_info now sym up st true).1.2 = a ∧
      (fetch_stock_info now sym up st true).2 = st) := by
  refine ⟨?_, ?_, ?_⟩
  · intro st now ts sym period a up hlk hvalid hlt
    have hfe : fetch_stock_history now sym period up st true
        = (st.heap.cells.length, { st with heap := ⟨st.heap.cells ++ [st.heap.get a]⟩ }) := by
      simp [fetch_stock_history, hlk, hvalid, Heap.alloc]
    rw [hfe]
    refine ⟨ne_of_gt hlt, ?_, ?_⟩
    · exact getD_append_self _ _
    · intro v
      simp only [Heap.set, Heap.get]
      rw [getD_set_ne _ _ _ _ (Nat.ne_of_lt hlt), getD_append_lt _ _ _ hlt]
  · intro st now ts symbols period a up hlk hvalid hlt
    have hfe : fetch_stock_history_batch now symbols period up st true
        = (st.heap.cells.length, { st with heap := ⟨st.heap.cells ++ [st.heap.get a]⟩ }) := by
      simp [fetch_stock_history_batch, hlk, hvalid, Heap.alloc]
    rw [hfe]
    refine ⟨ne_of_gt hlt, ?_, ?_⟩
    · exact getD_append_self _ _
    · intro v
      simp only [Heap.set, Heap.get]
      rw [getD_set_ne _ _ _ _ (Nat.ne_of_lt hlt), getD_append_lt _ _ _ hlt]
  · intro st now ts sym a up hlk hvalid
    have hfe : fetch_stock_info now sym up st true = ((sym, a), st) := by
      simp [fetch_stock_info, hlk, hvalid]
    rw [hfe]
    exact ⟨rfl, rfl⟩

/-- C4 witness: the amended clauses at concrete one-cell states holding
the payload [7], cached at time 0 and read at time 10. -/
theorem c4_copy_on_hit_witness :
    (fetch_stock_history 10 "X" "1y" (.error ())
       ⟨⟨[[7]]⟩, [], [(("X", "1y"), (0, 0))], []⟩ true).1 ≠ 0 ∧
    (fetch_stock_history_batch 10 ["X"] "1y" (.error ())
       ⟨⟨[[7]]⟩, [], [], [((["X"], "1y"), (0, 0))]⟩ true).1 ≠ 0 ∧
    (fetch_stock_info 10 "X" (.error ()) ⟨⟨[[7]]⟩, [("X", (0, 0))], [], []⟩ true).1.2 = 0 := by
  refine ⟨?_, ?_, ?_⟩
  · exact (c4_copy_on_hit.1 ⟨⟨[[7]]⟩, [], [(("X", "1y"), (0, 0))], []⟩ 10 0 "X" "1y" 0
      (.error ()) (by rfl) (by norm_num [is_cache_valid, HISTORY_CACHE_DURATION])
      (by decide)).1
  · exact (c4_copy_on_hit.2.1 ⟨⟨[[7]]⟩, [], [], [((["X"], "1y"), (0, 0))]⟩ 10 0 ["X"] "1y" 0
      (.error ()) (by rfl) (by norm_num [is_cache_valid, HISTORY_CACHE_DURATION])
      (by decide)).1
  · exact (c4_copy_on_hit.2.2 ⟨⟨[[7]]⟩, [("X", (0, 0))], [], []⟩ 10 0 "X" 0
      (.error ()) (by rfl) (by norm_num [is_cache_valid, INFO_CACHE_DURATION])).1

/-- C7: when the cache misses (no entry, or only an expired one) and the
upstream call raises, each of the three fetchers leaves every cache
table exactly as it was and returns an empty-result sentinel: an empty
dict for metadata, an empty frame for history and batch history. -/
theorem c7_upstream_failure_no_cache_write :
    (∀ (st : FetchState) (now : ℚ) (sym : String),
      (∀ ts a, st.info_cache.lookup sym = some (ts, a) →
        ¬ is_cache_valid now ts INFO_CACHE_DURATION) →
      (fetch_stock_info now sym (.error ()) st true).2.info_cache = st.info_cache ∧
      (fetch_stock_info now sym (.error ()) st true).2.history_cache = st.history_cache ∧
      (fetch_stock_info now sym (.error ()) st true).2.batch_history_cache
        = st.batch_history_cache ∧
      (fetch_stock_info now sym (.error ()) st true).2.heap.get
        (fetch_stock_info now sym (.error ()) st true).1.2 = []) ∧
    (∀ (st : FetchState) (now : ℚ) (sym period : String),
      (∀ ts a, st.history_cache.lookup (sym, period) = some (ts, a) →
        ¬ is_cache_valid now ts HISTORY_CACHE_DURATION) →
      (fetch_stock_history now sym period (.error ()) st true).2.info_cache = st.info_cache ∧
      (fetch_stock_history now sym period (.error ()) st true).2.history_cache
        = st.history_cache ∧
      (fetch_stock_history now sym period (.error ()) st true).2.batch_history_cache
        = st.batch_history_cache ∧
      (fetch_stock_history now sym period (.error ()) st true).2.heap.get
        (fetch_stock_history now sym period (.error ()) st true).1 = []) ∧
    (∀ (st : FetchState) (now : ℚ) (symbols : List String) (period : String),
      (∀ ts a, st.batch_history_cache.lookup (sortedSymbols symbols, period) = some (ts, a) →
        ¬ is_cache_valid now ts HISTORY_CACHE_DURATION) →
      (fetch_stock_history_batch now symbols period (.error ()) st true).2.info_cache
        = st.info_cache ∧
      (fetch_stock_history_batch now symbols period (.error ()) st true).2.history_cache
        = st.history_cache ∧
      (fetch_stock_history_batch now symbols period (.error ()) st true).2.batch_history_cache
        = st.batch_history_cache ∧
      (fetch_stock_history_batch now symbols period (.error ()) st true).2.heap.get
        (fetch_stock_history_batch now symbols period (.error ()) st true).1 = []) := by
  refine ⟨?_, ?_, ?_⟩
  · intro st now sym hmiss
    have hfe : fetch_stock_info now sym (.error ()) st true
        = ((sym, st.heap.cells.length), { st with heap := ⟨st.heap.cells ++ [[]]⟩ }) := by
      rcases hl : st.info_cache.lookup sym with _ | ⟨ts, a⟩
      · simp [fetch_stock_info, hl, Heap.alloc]
      · simp [fetch_stock_info, hl, Heap.alloc, hmiss ts a hl]
    rw [hfe]
    exact ⟨rfl, rfl, rfl, getD_append_self _ _⟩
  · intro st now sym period hmiss
    have hfe : fetch_stock_history now sym period (.error ()) st true
        = (st.heap.cells.length, { st with heap := ⟨st.heap.cells ++ [[]]⟩ }) := by
      rcases hl : st.history_cache.lookup (sym, period) with _ | ⟨ts, a⟩
      · simp [fetch_stock_history, hl, Heap.alloc]
      · simp [fetch_stock_history, hl, Heap.alloc, hmiss ts a hl]
    rw [hfe]
    exact ⟨rfl, rfl, rfl, getD_append_self _ _⟩
  · intro st now symbols period hmiss
    have hfe : fetch_stock_history_batch now symbols period (.error ()) st true
        = (st.heap.cells.length, { st with heap := ⟨st.heap.cells ++ [[]]⟩ }) := by
      rcases hl : st.batch_history_cache.lookup (sortedSymbols symbols, period) with _ | ⟨ts, a⟩
      · simp [fetch_stock_history_batch, hl, Heap.alloc]
      · simp [fetch_stock_history_batch, hl, Heap.alloc, hmiss ts a hl]
    rw [hfe]
    exact ⟨rfl, rfl, rfl, getD_append_self _ _⟩

/-- C7 witness: the three clauses at an empty-cache state with one
unrelated heap cell. -/
theorem c7_upstream_failure_no_cache_write_witness :
    (fetch_stock_info 0 "X" (.error ()) ⟨⟨[[7]]⟩, [], [], []⟩ true).2.info_cache = [] ∧
    (fetch_stock_history 0 "X" "1y" (.error ()) ⟨⟨[[7]]⟩, [], [], []⟩ true).2.history_cache
      = [] ∧
    (fetch_stock_history_batch 0 ["X"] "1y" (.error ())
      ⟨⟨[[7]]⟩, [], [], []⟩ true).2.batch_history_cache = [] := by
  refine ⟨?_, ?_, ?_⟩
  · exact (c7_upstream_failure_no_cache_write.1 ⟨⟨[[7]]⟩, [], [], []⟩ 0 "X"
      (by intro ts a h; exact absurd h (by simp [List.lookup]))).1
  · exact (c7_upstream_failure_no_cache_write.2.1 ⟨⟨[[7]]⟩, [], [], []⟩ 0 "X" "1y"
      (by intro ts a h; exact absurd h (by simp [List.lookup]))).2.1
  · exact (c7_upstream_failure_no_cache_write.2.2 ⟨⟨[[7]]⟩, [], [], []⟩ 0 ["X"] "1y"
      (by intro ts a h; exact absurd h (by simp [List.lookup]))).2.2.1

/-- C8: after a miss stores an entry, a second call with the same key
before the TTL elapses returns data value-equal to what was stored,
independently of the upstream oracle (`up2` is arbitrary: no upstream
call influences the result), and leaves every cache table unchanged —
for each of the three accessors. -/
theorem c8_cache_round_trip :
    (∀ (st : FetchState) (now1 now2 : ℚ) (sym period : String) (v : Obj)
      (up2 : Except Unit Obj),
      (∀ ts a, st.history_cache.lookup (sym, period) = some (ts, a) →
        ¬ is_cache_valid now1 ts HISTORY_CACHE_DURATION) →
      is_cache_valid now2 now1 HISTORY_CACHE_DURATION →
      (fetch_stock_history now2 sym period up2
          (fetch_stock_history now1 sym period (.ok v) st true).2 true).2.heap.get
        (fetch_stock_history now2 sym period up2
          (fetch_stock_history now1 sym period (.ok v) st true).2 true).1 = v ∧
      (fetch_stock_history now2 sym period up2
          (fetch_stock_history now1 sym period (.ok v) st true).2 true).2.history_cache
        = (fetch_stock_history now1 sym period (.ok v) st true).2.history_cache) ∧
    (∀ (st : FetchState) (now1 now2 : ℚ) (symbols : List String) (period : String) (v : Obj)
      (up2 : Except Unit Obj),
      (∀ ts a, st.batch_history_cache.lookup (sortedSymbols symbols, period) = some (ts, a) →
        ¬ is_cache_valid now1 ts HISTORY_CACHE_DURATION) →
      is_cache_valid now2 now1 HISTORY_CACHE_DURATION →
      (fetch_stock_history_batch now2 symbols period up2
          (fetch_stock_history_batch now1 symbols period (.ok v) st true).2 true).2.heap.get
        (fetch_stock_history_batch now2 symbols period up2
          (fetch_stock_history_batch now1 symbols period (.ok v) st true).2 true).1 = v ∧
      (fetch_stock_history_batch now2 symbols period up2
          (fetch_stock_history_batch now1 symbols period (.ok v) st true).2
          true).2.batch_history_cache
        = (fetch_stock_history_batch now1 symbols period
            (.ok v) st true).2.batch_history_cache) ∧
    (∀ (st : FetchState) (now1 now2 : ℚ) (sym : String) (v : Obj) (up2 : Except Unit Obj),
      (∀ ts a, st.info_cache.lookup sym = some (ts, a) →
        ¬ is_cache_valid now1 ts INFO_CACHE_DURATION) →
      is_cache_valid now2 now1 INFO_CACHE_DURATION →
      (fetch_stock_info now2 sym up2
          (fetch_stock_info now1 sym (.ok v) st true).2 true).2.heap.get
        (fetch_stock_info now2 sym up2
          (fetch_stock_info now1 sym (.ok v) st true).2 true).1.2 = v ∧
      (fetch_stock_info now2 sym up2
          (fetch_stock_info now1 sym (.ok v) st true).2 true).2
        = (fetch_stock_info now1 sym (.ok v) st true).2) := by
  refine ⟨?_, ?_, ?_⟩
  · intro st now1 now2 sym period v up2 hmiss hvalid2
    have h1 : fetch_stock_history now1 sym period (.ok v) st true
        = (st.heap.cells.length,
           { st with
               heap := ⟨st.heap.cells ++ [v]⟩
               history_cache := dictInsert st.history_cache (sym, period)
                 (now1, st.heap.cells.length) }) := by
      rcases hl : st.history_cache.lookup (sym, period) with _ | ⟨ts, a⟩
      · simp [fetch_stock_history, hl, Heap.alloc]
      · simp [fetch_stock_history, hl, Heap.alloc, hmiss ts a hl]
    rw [h1]
    have h2 : fetch_stock_history now2 sym period up2
        { st with
            heap := ⟨st.heap.cells ++ [v]⟩
            history_cache := dictInsert st.history_cache (sym, period)
              (now1, st.heap.cells.length) } true
        = ((st.heap.cells ++ [v]).length,
           { st with
               heap := ⟨(st.heap.cells ++ [v]) ++ [v]⟩
               history_cache := dictInsert st.history_cache (sym, period)
                 (now1, st.heap.cells.length) }) := by
      simp [fetch_stock_history, lookup_dictInsert_self, hvalid2, Heap.alloc, Heap.get,
        getD_append_self]
    rw [h2]
    exact ⟨getD_append_self _ _, rfl⟩
  · intro st now1 now2 symbols period v up2 hmiss hvalid2
    have h1 : fetch_stock_history_batch now1 symbols period (.ok v) st true
        = (st.heap.cells.length,
           { st with
               heap := ⟨st.heap.cells ++ [v]⟩
               batch_history_cache := dictInsert st.batch_history_cache
                 (sortedSymbols symbols, period) (now1, st.heap.cells.length) }) := by
      rcases hl : st.batch_history_cache.lookup (sortedSymbols symbols, period) with _ | ⟨ts, a⟩
      · simp [fetch_stock_history_batch, hl, Heap.alloc]
      · simp [fetch_stock_history_batch, hl, Heap.alloc, hmiss ts a hl]
    rw [h1]
    have h2 : fetch_stock_history_batch now2 symbols period up2
        { st with
            heap := ⟨st.heap.cells ++ [v]⟩
            batch_history_cache := dictInsert st.batch_history_cache
              (sortedSymbols symbols, period) (now1, st.heap.cells.length) } true
        = ((st.heap.cells ++ [v]).length,
           { st with
               heap := ⟨(st.heap.cells ++ [v]) ++ [v]⟩
               batch_history_cache := dictInsert st.batch_history_cache
                 (sortedSymbols symbols, period) (now1, st.heap.cells.length) }) := by
      simp [fetch_stock_history_batch, lookup_dictInsert_self, hvalid2, Heap.alloc, Heap.get,
        getD_append_self]
    rw [h2]
    exact ⟨getD_append_self _ _, rfl⟩
  · intro st now1 now2 sym v up2 hmiss hvalid2
    have h1 : fetch_stock_info now1 sym (.ok v) st true
        = ((sym, st.heap.cells.length),
           { st with
               heap := ⟨st.heap.cells ++ [v]⟩
               info_cache := dictInsert st.info_cache sym (now1, st.heap.cells.length) }) := by
      rcases hl : st.info_cache.lookup sym with _ | ⟨ts, a⟩
      · simp [fetch_stock_info, hl, Heap.alloc]
      · simp [fetch_stock_info, hl, Heap.alloc, hmiss ts a hl]
    rw [h1]
    have h2 : fetch_stock_info now2 sym up2
        { st with
            heap := ⟨st.heap.cells ++ [v]⟩
            info_cache := dictInsert st.info_cache sym (now1, st.heap.cells.length) } true
        = ((sym, st.heap.cells.length),
           { st with
               heap := ⟨st.heap.cells ++ [v]⟩
               info_cache := dictInsert st.info_cache sym (now1, st.heap.cells.length) }) := by
      simp [fetch_stock_info, lookup_dictInsert_self, hvalid2]
    rw [h2]
    exact ⟨getD_append_self _ _, rfl⟩

/-- C8 witness: the three round trips from an empty initial state,
storing payload [7] at time 0 and reading it back at time 10. -/
theorem c8_cache_round_trip_witness :
    (fetch_stock_history 10 "X" "1y" (.error ())
        (fetch_stock_history 0 "X" "1y" (.ok [7]) ⟨⟨[]⟩, [], [], []⟩ true).2 true).2.heap.get
      (fetch_stock_history 10 "X" "1y" (.error ())
        (fetch_stock_history 0 "X" "1y" (.ok [7]) ⟨⟨[]⟩, [], [], []⟩ true).2 true).1 = [7] ∧
    (fetch_stock_history_batch 10 ["X"] "1y" (.error ())
        (fetch_stock_history_batch 0 ["X"] "1y" (.ok [7]) ⟨⟨[]⟩, [], [], []⟩ true).2
        true).2.heap.get
      (fetch_stock_history_batch 10 ["X"] "1y" (.error ())
        (fetch_stock_history_batch 0 ["X"] "1y" (.ok [7]) ⟨⟨[]⟩, [], [], []⟩ true).2 true).1
      = [7] ∧
    (fetch_stock_info 10 "X" (.error ())
        (fetch_stock_info 0 "X" (.ok [7]) ⟨⟨[]⟩, [], [], []⟩ true).2 true).2.heap.get
      (fetch_stock_info 10 "X" (.error ())
        (fetch_stock_info 0 "X" (.ok [7]) ⟨⟨[]⟩, [], [], []⟩ true).2 true).1.2 = [7] := by
  refine ⟨?_, ?_, ?_⟩
  · exact (c8_cache_round_trip.1 ⟨⟨[]⟩, [], [], []⟩ 0 10 "X" "1y" [7] (.error ())
      (by intro ts a h; exact absurd h (by simp [List.lookup]))
      (by norm_num [is_cache_valid, HISTORY_CACHE_DURATION])).1
  · exact (c8_cache_round_trip.2.1 ⟨⟨[]⟩, [], [], []⟩ 0 10 ["X"] "1y" [7] (.error ())
      (by intro ts a h; exact absurd h (by simp [List.lookup]))
      (by norm_num [is_cache_valid, HISTORY_CACHE_DURATION])).1
  · exact (c8_cache_round_trip.2.2 ⟨⟨[]⟩, [], [], []⟩ 0 10 "X" [7] (.error ())
      (by intro ts a h; exact absurd h (by simp [List.lookup]))
      (by norm_num [is_cache_valid, INFO_CACHE_DURATION])).1

/-- C10: `fetch_stock` returns `(None, None)` exactly when the fetched
history frame is empty — regardless of the metadata outcome `upI` —
and its two components are `None` exactly together (so whenever the
history is non-empty the second component is a dict, never `None`). -/
theorem c10_fetch_stock_none_together :
    ∀ (st : FetchState) (now : ℚ) (sym period : String) (upH upI : Except Unit Obj),
      ((fetch_stock now sym period upH upI st).1.1 = none ↔
        (fetch_stock_history now sym period upH st true).2.heap.get
          (fetch_stock_history now sym period upH st true).1 = []) ∧
      ((fetch_stock now sym period upH upI st).1.1 = none ↔
        (fetch_stock now sym period upH upI st).1.2 = none) := by
  intro st now sym period upH upI
  by_cases h : (fetch_stock_history now sym period upH st true).2.heap.get
      (fetch_stock_history now sym period upH st true).1 = []
  · simp [fetch_stock, h]
  · simp [fetch_stock, h]

/-! ## Claims about the batch merge -/

theorem lookup_info_data_none (infoOf : String → Obj) (sym : String)
    (h : infoOf sym = []) :
    ∀ (symbols : List String),
    (symbols.filterMap (fun s => if (infoOf s).isEmpty then none
        else some (s, infoOf s))).lookup sym = none := by
  intro symbols
  induction symbols with
  | nil => rfl
  | cons a t ih =>
    cases he : (infoOf a).isEmpty with
    | true =>
      simp only [List.filterMap_cons, he, ite_true]
      exact ih
    | false =>
      have hne : (sym == a) = false := by
        apply beq_eq_false_iff_ne.mpr
        intro hsa
        rw [hsa] at h
        rw [h] at he
        simp at he
      simp only [List.filterMap_cons, he, ite_false, List.lookup, hne]
      exact ih

theorem lookup_info_data (infoOf : String → Obj) (sym : String) :
    ∀ (symbols : List String), sym ∈ symbols →
    (symbols.filterMap (fun s => if (infoOf s).isEmpty then none
        else some (s, infoOf s))).lookup sym
      = if (infoOf sym).isEmpty then none else some (infoOf sym) := by
  intro symbols hmem
  cases h : (infoOf sym).isEmpty with
  | true =>
    rw [if_pos rfl]
    exact lookup_info_data_none infoOf sym (List.isEmpty_iff.mp h) symbols
  | false =>
    rw [if_neg Bool.false_ne_true]
    have key : ∀ (l : List String), sym ∈ l →
        (l.filterMap (fun s => if (infoOf s).isEmpty then none
          else some (s, infoOf s))).lookup sym = some (infoOf sym) := by
      intro l
      induction l with
      | nil => intro hm; exact absurd hm (List.not_mem_nil sym)
      | cons a t ih =>
        intro hm
        by_cases ha : sym = a
        · subst ha
          simp only [List.filterMap_cons, h, ite_false, List.lookup, beq_self_eq_true]
        · have hmt : sym ∈ t := (List.mem_cons.mp hm).resolve_left ha
          cases he : (infoOf a).isEmpty with
          | true =>
            simp only [List.filterMap_cons, he, ite_true]
            exact ih hmt
          | false =>
            have hne : (sym == a) = false := beq_eq_false_iff_ne.mpr ha
            simp only [List.filterMap_cons, he, ite_false, List.lookup, hne]
            exact ih hmt
    exact key symbols hmem

theorem lookup_mem {kt vt : Type} [BEq kt] [LawfulBEq kt] :
    ∀ (l : List (kt × vt)) (k : kt) (v : vt), l.lookup k = some v → (k, v) ∈ l := by
  intro l k v h
  induction l with
  | nil => simp [List.lookup] at h
  | cons p t ih =>
    obtain ⟨pk, pv⟩ := p
    by_cases hb : (k == pk) = true
    · have hk : k = pk := eq_of_beq hb
      rw [List.lookup, hb] at h
      cases h
      exact hk ▸ List.mem_cons_self _ _
    · rw [List.lookup, Bool.of_not_eq_true hb] at h
      exact List.mem_cons_of_mem _ (ih h)

theorem df_slice_eq (symbols : List String) (resp : List (String × Obj)) (sym : String)
    (hkeys : ∀ p ∈ resp, p.1 ∈ symbols) (hnd : (resp.map Prod.fst).Nodup)
    (hmem : sym ∈ symbols) :
    (if frameEmpty resp then []
     else if symbols.length = 1 then frameRows resp
     else (resp.lookup sym).getD []) = (resp.lookup sym).getD [] := by
  by_cases hfe : frameEmpty resp = true
  · rw [if_pos hfe]
    rcases hl : resp.lookup sym with _ | bars
    · rfl
    · have hin := lookup_mem resp sym bars hl
      have hbe : bars.isEmpty = true := by
        simpa using List.all_eq_true.mp hfe (sym, bars) hin
      simp [List.isEmpty_iff.mp hbe]
  · rw [if_neg hfe]
    by_cases hlen : symbols.length = 1
    · rw [if_pos hlen]
      obtain ⟨a, ha⟩ := List.length_eq_one.mp hlen
      subst ha
      have hsa : sym = a := by simpa using hmem
      subst hsa
      match resp, hkeys, hnd, hfe with
      | [], _, _, hfe => exact absurd rfl hfe
      | (k, bars) :: rest, hkeys, hnd, hfe =>
        have hk : k = sym := by simpa using hkeys (k, bars) (List.mem_cons_self _ _)
        subst hk
        match rest, hkeys, hnd with
        | [], _, _ => simp [frameRows, List.lookup]
        | (k2, bars2) :: rest2, hkeys, hnd =>
          have hk2 : k2 = k := by
            simpa using hkeys (k2, bars2) (List.mem_cons_of_mem _ (List.mem_cons_self _ _))
          have hndk : k ∉ (k2 :: rest2.map Prod.fst) := by
            have h' : (k :: k2 :: rest2.map Prod.fst).Nodup := by simpa using hnd
            exact (List.nodup_cons.mp h').1
          exact absurd (by rw [hk2]; exact List.mem_cons_self _ _) hndk
    · rw [if_neg hlen]

/-- C6: a requested symbol appears in the result of `fetch_stock_batch`
iff its slice of the bulk response is non-empty or its metadata dict is
non-empty; a symbol whose metadata failed (empty dict) but whose bulk
history is non-empty still appears, paired with an empty metadata
record and that history; a symbol with neither is omitted.  The
hypotheses say the bulk frame has one column group per requested
ticker: every response key is a requested symbol and keys do not
repeat. -/
theorem c6_batch_membership :
    ∀ (symbols : List String) (infoOf : String → Obj) (resp : List (String × Obj)),
      (∀ p ∈ resp, p.1 ∈ symbols) → (resp.map Prod.fst).Nodup →
      ∀ sym ∈ symbols,
      ((∃ dfv infov, (sym, (dfv, infov)) ∈ fetch_stock_batch symbols infoOf resp) ↔
        ((resp.lookup sym).getD [] ≠ [] ∨ infoOf sym ≠ [])) ∧
      ((resp.lookup sym).getD [] ≠ [] → infoOf sym = [] →
        (sym, ((resp.lookup sym).getD [], [])) ∈ fetch_stock_batch symbols infoOf resp) := by
  intro symbols infoOf resp hkeys hnd sym hmem
  have hdf := df_slice_eq symbols resp sym hkeys hnd hmem
  have hinfo := lookup_info_data infoOf sym symbols hmem
  simp only [fetch_stock_batch]
  constructor
  · constructor
    · rintro ⟨dfv, infov, hin⟩
      rcases List.mem_filterMap.mp hin with ⟨a, ha, hfa⟩
      by_cases hc : ((if frameEmpty resp then []
            else if symbols.length = 1 then frameRows resp
            else (resp.lookup a).getD []) : Obj).isEmpty = true ∧
          (symbols.filterMap (fun s => if (infoOf s).isEmpty then none
            else some (s, infoOf s))).lookup a = none
      · rw [if_pos hc] at hfa
        exact absurd hfa (by simp)
      · rw [if_neg hc] at hfa
        have haeq : a = sym := by
          have := congrArg Prod.fst (Option.some.inj hfa)
          simpa using this
        subst haeq
        rw [hdf, hinfo] at hc
        by_contra hcon
        push_neg at hcon
        refine hc ⟨List.isEmpty_iff.mpr hcon.1, ?_⟩
        rw [if_pos (List.isEmpty_iff.mpr hcon.2)]
    · intro hor
      refine ⟨(resp.lookup sym).getD [],
        ((symbols.filterMap (fun s => if (infoOf s).isEmpty then none
          else some (s, infoOf s))).lookup sym).getD [], ?_⟩
      refine List.mem_filterMap.mpr ⟨sym, hmem, ?_⟩
      rw [hdf, hinfo]
      rw [if_neg]
      intro hcon
      obtain ⟨hemp, hnone⟩ := hcon
      rcases hor with hh | hi
      · exact hh (List.isEmpty_iff.mp hemp)
      · cases ht : (infoOf sym).isEmpty with
        | false =>
          rw [ht] at hnone
          rw [if_neg Bool.false_ne_true] at hnone
          exact Option.some_ne_none _ hnone
        | true => exact hi (List.isEmpty_iff.mp ht)
  · intro hh hi
    have hie : (infoOf sym).isEmpty = true := List.isEmpty_iff.mpr hi
    refine List.mem_filterMap.mpr ⟨sym, hmem, ?_⟩
    rw [hdf, hinfo, if_pos hie]
    rw [if_neg]
    · simp
    · intro hcon
      exact hh (List.isEmpty_iff.mp hcon.1)

/-- C6 witness: two requested symbols; "A" has bulk history but failed
metadata and appears with an empty metadata record; "B" has neither and
is omitted. -/
theorem c6_batch_membership_witness :
    (("A", (([5] : Obj), ([] : Obj))) ∈
      fetch_stock_batch ["A", "B"] (fun _ => []) [("A", [5])]) ∧
    ¬(∃ dfv infov, (("B" : String), (dfv, infov)) ∈
      fetch_stock_batch ["A", "B"] (fun _ => []) [("A", [5])]) := by
  constructor
  · have h := (c6_batch_membership ["A", "B"] (fun _ => []) [("A", [5])]
      (by intro p hp; simp at hp; simp [hp]) (by simp)
      "A" (by simp)).2 (by simp [List.lookup]) rfl
    simpa [List.lookup] using h
  · have h := (c6_batch_membership ["A", "B"] (fun _ => []) [("A", [5])]
      (by intro p hp; simp at hp; simp [hp]) (by simp)
      "B" (by simp)).1
    intro hex
    rcases h.mp hex with hc | hc
    · exact hc (by simp [List.lookup])
    · exact hc rfl

/-! ## Claims about the rating cascade -/

/-- C1: the spec's example (price 110, short average 100, long average 90,
fundamental score 8, golden cross aged 5 days, bullish momentum, high
volume, every other signal unknown) is claimed to yield STRONG BUY; the
code returns BUY, because its fresh-golden-cross STRONG BUY branch also
demands a BULLISH supertrend signal. -/
theorem c1_golden_cross_example_not_strong_buy :
    rating (some 110) (some 100) (some 90) (some 8)
      (some ⟨some "GOLDEN_CROSS", some 5⟩) none (some "BULLISH") (some "HIGH")
      none none none 1 = Rating.BUY ∧ Rating.BUY ≠ Rating.STRONG_BUY := by
  decide

/-- C1 (amended): on the spec's example inputs the rating is BUY; adding
a BULLISH supertrend signal to the very same inputs yields STRONG BUY. -/
theorem c1_golden_cross_example_buy :
    rating (some 110) (some 100) (some 90) (some 8)
      (some ⟨some "GOLDEN_CROSS", some 5⟩) none (some "BULLISH") (some "HIGH")
      none none none 1 = Rating.BUY ∧
    rating (some 110) (some 100) (some 90) (some 8)
      (some ⟨some "GOLDEN_CROSS", some 5⟩) none (some "BULLISH") (some "HIGH")
      none (some "BULLISH") none 1 = Rating.STRONG_BUY := by
  decide

/-- C2: a concrete input with bullish momentum, NORMAL volume, no cross,
no other matching earlier rule, and combined score 17 (fundamental 8,
technical 5) rates BUY; raising the combined score to 18 (adding the
STRONG_TREND ADX point) still rates BUY, not STRONG BUY — the cascade's
STRONG BUY threshold on the combined score is 20, not 18. -/
theorem c2_boundary_17_18_no_flip :
    tech_score 0 0 0 none (some "BULLISH") (some "NORMAL") (some "NEUTRAL")
      none none 1 = 5 ∧
    tech_score 0 0 0 none (some "BULLISH") (some "NORMAL") (some "NEUTRAL")
      none (some "STRONG_TREND") 1 = 6 ∧
    rating none none none (some 8) none none (some "BULLISH") (some "NORMAL")
      (some "NEUTRAL") none none 1 = Rating.BUY ∧
    rating none none none (some 8) none none (some "BULLISH") (some "NORMAL")
      (some "NEUTRAL") none (some "STRONG_TREND") 1 = Rating.BUY ∧
    Rating.BUY ≠ Rating.STRONG_BUY := by
  simp only [rating, tech_score, rsi_points_extreme, onSome, Option.getD_none]
  simp only [reduceCtorEq, Option.some.injEq, String.reduceEq, false_and, and_false, if_false,
    true_and, and_true, ne_eq, not_false_eq_true, if_true, ite_false, ite_true, false_or, or_false,
    Int.reduceAdd, Int.reduceLE, Int.reduceLT, reduceIte, and_self, or_self, not_true_eq_false]
  norm_num

/-- C2 (amended): with bullish momentum, HIGH or NORMAL volume, no cross
event, no RSI reading, no BEARISH supertrend, and the
good-fundamentals/collapsed-technicals rule not firing, every combined
score in [17, 20) — in particular both 17 and 18 — rates BUY: raising
the combined score from 17 to 18 does not change the rating.  The flip
to STRONG BUY happens only at combined score ≥ 20 together with a
BULLISH supertrend or an OVERSOLD Bollinger signal. -/
theorem c2_combined_score_bands :
    (∀ (price dma50 dma200 : Option ℚ) (fscore : Option Int)
      (volume bb st adx : Option String) (m : ℚ),
      (volume = some "HIGH" ∨ volume = some "NORMAL") →
      st ≠ some "BEARISH" →
      ¬(6 ≤ fscore.getD 0 ∧
        tech_score (price.getD 0) (dma50.getD 0) (dma200.getD 0) none
          (some "BULLISH") volume bb st adx m ≤ 4) →
      17 ≤ (fscore.getD 0 : ℚ) * 1.5 +
        ((tech_score (price.getD 0) (dma50.getD 0) (dma200.getD 0) none
          (some "BULLISH") volume bb st adx m : Int) : ℚ) →
      (fscore.getD 0 : ℚ) * 1.5 +
        ((tech_score (price.getD 0) (dma50.getD 0) (dma200.getD 0) none
          (some "BULLISH") volume bb st adx m : Int) : ℚ) < 20 →
      rating price dma50 dma200 fscore none none (some "BULLISH") volume bb st adx m
        = Rating.BUY) ∧
    (∀ (price dma50 dma200 : Option ℚ) (fscore : Option Int)
      (volume bb st adx : Option String) (m : ℚ),
      (volume = some "HIGH" ∨ volume = some "NORMAL") →
      (st = some "BULLISH" ∨ bb = some "OVERSOLD") →
      ¬(6 ≤ fscore.getD 0 ∧
        tech_score (price.getD 0) (dma50.getD 0) (dma200.getD 0) none
          (some "BULLISH") volume bb st adx m ≤ 4) →
      20 ≤ (fscore.getD 0 : ℚ) * 1.5 +
        ((tech_score (price.getD 0) (dma50.getD 0) (dma200.getD 0) none
          (some "BULLISH") volume bb st adx m : Int) : ℚ) →
      rating price dma50 dma200 fscore none none (some "BULLISH") volume bb st adx m
        = Rating.STRONG_BUY) := by
  constructor
  · intro price dma50 dma200 fscore volume bb st adx m hvol hst hrule6 h17 h20
    simp only [rating, Option.getD_none, rsi_points_extreme, onSome]
    simp only [reduceCtorEq, Option.some.injEq, String.reduceEq, false_and, and_false, if_false,
      true_and, and_true, ne_eq, not_false_eq_true, if_true, ite_false, ite_true, false_or,
      or_false]
    rw [if_neg hrule6]
    rw [if_neg (fun hc => absurd hc.1 (not_le.mpr h20))]
    rw [if_pos (And.intro h17 hst)]
  · intro price dma50 dma200 fscore volume bb st adx m hvol hconf hrule6 h20
    simp only [rating, Option.getD_none, rsi_points_extreme, onSome]
    simp only [reduceCtorEq, Option.some.injEq, String.reduceEq, false_and, and_false, if_false,
      true_and, and_true, ne_eq, not_false_eq_true, if_true, ite_false, ite_true, false_or,
      or_false]
    rw [if_neg hrule6]
    rw [if_pos (And.intro h20 (And.intro hvol hconf))]

/-- C2 witness: both amended clauses instantiated, at fundamental 8 /
technical 5 (combined 17) for the BUY band and at fundamental 10 /
technical 7 (combined 22, supertrend BULLISH) for the STRONG BUY band. -/
theorem c2_combined_score_bands_witness :
    rating none none none (some 8) none none (some "BULLISH") (some "NORMAL")
      (some "NEUTRAL") none none 1 = Rating.BUY ∧
    rating none none none (some 10) none none (some "BULLISH") (some "NORMAL")
      (some "NEUTRAL") (some "BULLISH") none 1 = Rating.STRONG_BUY := by
  constructor
  · exact c2_combined_score_bands.1 none none none (some 8) (some "NORMAL")
      (some "NEUTRAL") none none 1 (Or.inr rfl) (by decide) (by decide)
      (by simp only [tech_score, rsi_points_extreme, reduceCtorEq, Option.some.injEq,
        String.reduceEq, reduceIte, Int.reduceAdd]; norm_num)
      (by simp only [tech_score, rsi_points_extreme, reduceCtorEq, Option.some.injEq,
        String.reduceEq, reduceIte, Int.reduceAdd]; norm_num)
  · exact c2_combined_score_bands.2 none none none (some 10) (some "NORMAL")
      (some "NEUTRAL") (some "BULLISH") none 1 (Or.inr rfl) (Or.inl rfl)
      (by decide) (by simp only [tech_score, rsi_points_extreme, reduceCtorEq, Option.some.injEq,
        String.reduceEq, reduceIte, Int.reduceAdd]; norm_num)

/-- C9: on the weakest inputs (fundamental score 0, technical score 0, no
cross event, every signal unknown) the cascade returns SELL, not
STRONG SELL: the poor-fundamentals/weak-technicals rule
(fscore < 3 and tech_score < 5) fires before the combined-score < 7
STRONG SELL fallback can be reached. -/
theorem c9_weakest_input_sell_not_strong_sell :
    rating none none none (some 0) none none none none none none none 1
      = Rating.SELL ∧ Rating.SELL ≠ Rating.STRONG_SELL := by
  simp only [rating, tech_score, rsi_points_extreme, onSome, Option.getD_none]
  simp only [reduceCtorEq, Option.some.injEq, String.reduceEq, false_and, and_false, if_false,
    true_and, and_true, ne_eq, not_false_eq_true, if_true, ite_false, ite_true, false_or, or_false,
    Int.reduceAdd, Int.reduceLE, Int.reduceLT, reduceIte, and_self, or_self, not_true_eq_false]
  norm_num

/-- C9 (amended): the weakest inputs (fundamental 0, technical 0, all
signals unknown) return SELL via the poor-fundamentals rule; the
terminal STRONG SELL fallback fires only for combined scores below 7
that escape that rule, for example fundamental 4 with technical 0
(combined 6). -/
theorem c9_terminal_fallback :
    rating none none none (some 0) none none none none none none none 1
      = Rating.SELL ∧
    rating none none none (some 4) none none none none none none none 1
      = Rating.STRONG_SELL := by
  simp only [rating, tech_score, rsi_points_extreme, onSome, Option.getD_none]
  simp only [reduceCtorEq, Option.some.injEq, String.reduceEq, false_and, and_false, if_false,
    true_and, and_true, ne_eq, not_false_eq_true, if_true, ite_false, ite_true, false_or, or_false,
    Int.reduceAdd, Int.reduceLE, Int.reduceLT, reduceIte, and_self, or_self, not_true_eq_false]
  norm_num



/-- C3: the claim that `fundamental_score` treats an absent or null
field as a zero contribution and never raises is false for a null
`heldPercentInsiders`: the code multiplies the fetched value by 100
before checking it for `None`, so Python raises `TypeError` there.  An
all-absent record, by contrast, scores 0 without error. -/
theorem c3_null_insiders_raises :
    fundamental_score (some {}) = .ok 0 ∧
    fundamental_score (some { heldPercentInsiders := .null }) = .error () := by
  constructor
  · simp only [fundamental_score, FieldVal.get, FieldVal.getD]
    norm_num
  · rfl

end Stockeye
